import Mathlib

/-!
Verification of the durable-streams repository: a shallow embedding of the
cursor engine (`packages/server/src/cursor.ts`), the client response stream
(`packages/client/src/response.ts`), the client error mapping
(`packages/client/src/utils.ts`) and the Go chunk iterator, together with
theorems settling the specification claims about them.

JavaScript numbers are modelled as integers (`ℤ`) where the code only ever
holds integral values (epoch milliseconds from `Date.getTime`, interval
seconds, interval numbers), and as rationals (`ℚ`) where a fractional
intermediate arises (`Math.random()`, the float divisions fed to
`Math.floor` / `Math.ceil`).
-/

/-! ## Decimal rendering and parsing

`String(n)` and `parseInt(s, 10)` from JavaScript, modelled over `ℤ`.
The rendering is the usual decimal one: digits of `|n|`, most significant
first, prefixed by `-` for negative numbers.  `parseIntJS` skips leading
whitespace, accepts an optional sign and reads the longest digit prefix,
returning `none` for JavaScript's `NaN`.
-/

/-- Value of a decimal digit character. -/
def digitVal (c : Char) : ℕ := c.toNat - 48

/-- Character for a decimal digit value below ten. -/
def digitChar (d : ℕ) : Char := Char.ofNat (48 + d)

/-- Little-endian decimal digits, with explicit fuel so that concrete
inputs reduce by `decide` and `rfl`. -/
def natToDigitsLEAux (fuel n : ℕ) : List ℕ :=
  match fuel with
  | 0 => []
  | fuel + 1 => if n < 10 then [n] else n % 10 :: natToDigitsLEAux fuel (n / 10)

/-- Little-endian decimal digits of a natural number. -/
def natToDigitsLE (n : ℕ) : List ℕ := natToDigitsLEAux (n + 1) n

theorem natToDigitsLEAux_fuel :
    ∀ f1 f2 n : ℕ, n < f1 → n < f2 → natToDigitsLEAux f1 n = natToDigitsLEAux f2 n := by
  intro f1
  induction f1 with
  | zero => intro f2 n h1 _; omega
  | succ f ih =>
    intro f2 n h1 h2
    cases f2 with
    | zero => omega
    | succ g =>
      simp only [natToDigitsLEAux]
      by_cases h : n < 10
      · simp [h]
      · simp only [if_neg h]
        congr 1
        have hdiv : n / 10 < n := Nat.div_lt_self (by omega) (by omega)
        exact ih g (n / 10) (by omega) (by omega)

theorem natToDigitsLE_unfold (n : ℕ) :
    natToDigitsLE n = if n < 10 then [n] else n % 10 :: natToDigitsLE (n / 10) := by
  rw [natToDigitsLE]
  simp only [natToDigitsLEAux]
  by_cases h : n < 10
  · simp [h]
  · simp only [if_neg h]
    congr 1
    have hdiv : n / 10 < n := Nat.div_lt_self (by omega) (by omega)
    exact natToDigitsLEAux_fuel n (n / 10 + 1) (n / 10) (by omega) (by omega)

/-- Decimal rendering of a natural number. -/
def natToString (n : ℕ) : String :=
  String.mk ((natToDigitsLE n).reverse.map digitChar)

/-- Models JavaScript `String(n)` for an integral number `n`. -/
def intToString (n : ℤ) : String :=
  if n < 0 then "-" ++ natToString n.natAbs else natToString n.natAbs

/-- Longest digit prefix of a character list read as a decimal number;
`none` when there is no leading digit. -/
def parseDigits (cs : List Char) : Option ℕ :=
  let ds := cs.takeWhile Char.isDigit
  if ds.isEmpty then none
  else some (ds.foldl (fun acc c => acc * 10 + digitVal c) 0)

/-- Models JavaScript `parseInt(s, 10)`: skip leading whitespace, optional
sign, longest digit prefix; `none` models `NaN`. -/
def parseIntChars : List Char → Option ℤ
  | [] => none
  | c :: rest =>
    if c = '-' then (parseDigits rest).map (fun n => -(n : ℤ))
    else if c = '+' then (parseDigits rest).map (fun n => (n : ℤ))
    else (parseDigits (c :: rest)).map (fun n => (n : ℤ))

/-- Models JavaScript `parseInt(s, 10)` applied to the whole string. -/
def parseIntJS (s : String) : Option ℤ :=
  parseIntChars (s.toList.dropWhile Char.isWhitespace)

theorem digitVal_digitChar {d : ℕ} (h : d < 10) : digitVal (digitChar d) = d := by
  interval_cases d <;> decide

theorem isDigit_digitChar {d : ℕ} (h : d < 10) : (digitChar d).isDigit = true := by
  interval_cases d <;> decide

theorem not_whitespace_digitChar {d : ℕ} (h : d < 10) :
    (digitChar d).isWhitespace = false := by
  interval_cases d <;> decide

theorem digitChar_ne_dash {d : ℕ} (h : d < 10) : digitChar d ≠ '-' := by
  interval_cases d <;> decide

theorem digitChar_ne_plus {d : ℕ} (h : d < 10) : digitChar d ≠ '+' := by
  interval_cases d <;> decide

theorem natToDigitsLE_lt_ten (n : ℕ) : ∀ d ∈ natToDigitsLE n, d < 10 := by
  induction n using Nat.strong_induction_on with
  | _ n ih =>
    rw [natToDigitsLE_unfold]
    split
    · next h => intro d hd; rw [List.mem_singleton] at hd; omega
    · next h =>
      intro d hd
      rcases List.mem_cons.mp hd with h1 | h1
      · have : n % 10 < 10 := Nat.mod_lt _ (by omega)
        omega
      · exact ih (n / 10) (Nat.div_lt_self (by omega) (by omega)) d h1

theorem natToDigitsLE_ne_nil (n : ℕ) : natToDigitsLE n ≠ [] := by
  rw [natToDigitsLE_unfold]; split <;> simp

/-- Horner evaluation of big-endian decimal digits. -/
def digitsBEVal (l : List ℕ) : ℕ := l.foldl (fun acc d => acc * 10 + d) 0

theorem digitsBEVal_append_singleton (l : List ℕ) (d : ℕ) :
    digitsBEVal (l ++ [d]) = digitsBEVal l * 10 + d := by
  simp [digitsBEVal, List.foldl_append]

theorem digitsBEVal_rev_natToDigitsLE (n : ℕ) :
    digitsBEVal (natToDigitsLE n).reverse = n := by
  induction n using Nat.strong_induction_on with
  | _ n ih =>
    rw [natToDigitsLE_unfold]
    split
    · next h => simp [digitsBEVal]
    · next h =>
      rw [List.reverse_cons, digitsBEVal_append_singleton,
        ih (n / 10) (Nat.div_lt_self (by omega) (by omega))]
      omega

theorem takeWhile_of_all {p : Char → Bool} :
    ∀ l : List Char, (∀ c ∈ l, p c = true) → l.takeWhile p = l := by
  intro l
  induction l with
  | nil => intro _; rfl
  | cons c cs ih =>
    intro h
    have hc : p c = true := h c (by simp)
    simp [List.takeWhile_cons, hc, ih (fun x hx => h x (by simp [hx]))]

theorem foldl_map_digitChar (l : List ℕ) (h : ∀ d ∈ l, d < 10) :
    ∀ a : ℕ, (l.map digitChar).foldl (fun acc c => acc * 10 + digitVal c) a =
      l.foldl (fun acc d => acc * 10 + d) a := by
  induction l with
  | nil => intro a; rfl
  | cons d ds ih =>
    intro a
    have hd : d < 10 := h d (by simp)
    simp only [List.map_cons, List.foldl_cons, digitVal_digitChar hd]
    exact ih (fun x hx => h x (by simp [hx])) _

theorem parseDigits_render (n : ℕ) :
    parseDigits ((natToDigitsLE n).reverse.map digitChar) = some n := by
  have hlt : ∀ d ∈ (natToDigitsLE n).reverse, d < 10 := by
    intro d hd
    exact natToDigitsLE_lt_ten n d (List.mem_reverse.mp hd)
  have hdig : ∀ c ∈ (natToDigitsLE n).reverse.map digitChar, c.isDigit = true := by
    intro c hc
    rcases List.mem_map.mp hc with ⟨d, hd, rfl⟩
    exact isDigit_digitChar (hlt d hd)
  have hne : (natToDigitsLE n).reverse.map digitChar ≠ [] := by
    simp [natToDigitsLE_ne_nil n]
  rw [parseDigits]
  simp only [takeWhile_of_all _ hdig, List.isEmpty_iff, if_neg hne]
  rw [foldl_map_digitChar _ hlt 0]
  have := digitsBEVal_rev_natToDigitsLE n
  rw [digitsBEVal] at this
  rw [this]

theorem natToString_head (n : ℕ) :
    ∃ d cs, d < 10 ∧ (natToString n).toList = digitChar d :: cs ∧
      (natToString n).toList = (natToDigitsLE n).reverse.map digitChar := by
  have hne : (natToDigitsLE n).reverse.map digitChar ≠ [] := by
    simp [natToDigitsLE_ne_nil n]
  rcases List.exists_cons_of_ne_nil hne with ⟨c, cs, hc⟩
  have hmem : c ∈ (natToDigitsLE n).reverse.map digitChar := by rw [hc]; simp
  rcases List.mem_map.mp hmem with ⟨d, hd, rfl⟩
  have hdlt : d < 10 := natToDigitsLE_lt_ten n d (List.mem_reverse.mp hd)
  exact ⟨d, cs, hdlt, by rw [show (natToString n).toList
    = (natToDigitsLE n).reverse.map digitChar from rfl, hc], rfl⟩

theorem parseIntJS_natToString (n : ℕ) : parseIntJS (natToString n) = some (n : ℤ) := by
  rcases natToString_head n with ⟨d, cs, hdlt, hhead, hall⟩
  rw [parseIntJS, hhead]
  rw [List.dropWhile_cons, not_whitespace_digitChar hdlt]
  simp only [Bool.false_eq_true, if_false]
  simp only [parseIntChars]
  rw [if_neg (digitChar_ne_dash hdlt), if_neg (digitChar_ne_plus hdlt)]
  rw [show digitChar d :: cs = (natToDigitsLE n).reverse.map digitChar from
    hhead ▸ hall, parseDigits_render n]
  rfl

theorem parseIntJS_intToString (n : ℤ) : parseIntJS (intToString n) = some n := by
  rw [intToString]
  split
  · next hneg =>
    have hdata : ("-" ++ natToString n.natAbs).toList
        = '-' :: (natToString n.natAbs).toList := rfl
    rcases natToString_head n.natAbs with ⟨d, cs, hdlt, hhead, hall⟩
    rw [parseIntJS, hdata]
    have hws : ('-' : Char).isWhitespace = false := by decide
    rw [List.dropWhile_cons, hws]
    rw [if_neg (by decide : ¬ (false = true))]
    simp only [parseIntChars, if_true]
    rw [show (natToString n.natAbs).toList
      = (natToDigitsLE n.natAbs).reverse.map digitChar from hall,
      parseDigits_render n.natAbs]
    have hval : -((n.natAbs : ℤ)) = n := by omega
    simp [hval, abs_of_neg hneg]
  · next hpos =>
    rw [parseIntJS_natToString n.natAbs]
    congr 1
    omega

theorem natToString_ne_empty (n : ℕ) : natToString n ≠ "" := by
  intro h
  have : (natToString n).toList = [] := by rw [h]; rfl
  rcases natToString_head n with ⟨d, cs, _, hhead, _⟩
  rw [hhead] at this
  exact List.cons_ne_nil _ _ this

theorem intToString_ne_empty (n : ℤ) : intToString n ≠ "" := by
  rw [intToString]
  split
  · intro h
    have : ("-" ++ natToString n.natAbs).toList = [] := by rw [h]; rfl
    exact List.cons_ne_nil _ _ this
  · exact natToString_ne_empty _

/-! ## Cursor engine (`packages/server/src/cursor.ts`)

The embedding renders `Date` instants as milliseconds since the Unix epoch
(`Date.getTime`), takes the ambient `Date.now()` as an explicit `now`
argument and the ambient `Math.random()` sample as an explicit rational
`r ∈ [0, 1)`.
-/

/-- Gregorian leap-year test, as in the proleptic calendar used by
JavaScript `Date`. -/
def isLeapYear (y : ℕ) : Bool :=
  (y % 4 == 0 && y % 100 != 0) || y % 400 == 0

/-- Length of a year in days. -/
def daysInYear (y : ℕ) : ℕ := if isLeapYear y then 366 else 365

/-- Month lengths of a year, January first. -/
def monthLengths (leap : Bool) : List ℕ :=
  [31, if leap then 29 else 28, 31, 30, 31, 30, 31, 31, 30, 31, 30, 31]

/-- Days from 1970-01-01 to year `y`, month `m`, day `d` (UTC midnight). -/
def daysSinceUnixEpoch (y m d : ℕ) : ℕ :=
  (((List.range (y - 1970)).map (fun i => daysInYear (1970 + i))).sum)
    + ((monthLengths (isLeapYear y)).take (m - 1)).sum + (d - 1)

/-- Models `new Date("2025-12-19T00:00:00.000Z").getTime()`: the default
epoch for cursor calculation, December 19, 2025 00:00:00 UTC, in
milliseconds since the Unix epoch. -/
def DEFAULT_CURSOR_EPOCH : ℤ := ((daysSinceUnixEpoch 2025 12 19 : ℕ) : ℤ) * 86400000

/-- Default interval duration in seconds. -/
def DEFAULT_CURSOR_INTERVAL_SECONDS : ℤ := 20

/-- Maximum jitter in seconds to add on collision. -/
def MAX_JITTER_SECONDS : ℤ := 3600

/-- Minimum jitter in seconds. -/
def MIN_JITTER_SECONDS : ℤ := 1

/-- Configuration options for cursor calculation; absent fields fall back
to the defaults. -/
structure CursorOptions where
  intervalSeconds : Option ℤ := none
  epoch : Option ℤ := none

/-- Models `calculateCursor(options)` at time `now`: the interval number
since the epoch, `Math.floor((now - epochMs) / intervalMs)`, rendered as a
decimal string. -/
def calculateCursor (now : ℤ) (options : CursorOptions) : String :=
  let intervalSeconds := options.intervalSeconds.getD DEFAULT_CURSOR_INTERVAL_SECONDS
  let epochMs := options.epoch.getD DEFAULT_CURSOR_EPOCH
  let intervalMs := intervalSeconds * 1000
  let intervalNumber := ⌊((now - epochMs : ℤ) : ℚ) / ((intervalMs : ℤ) : ℚ)⌋
  intToString intervalNumber

/-- The jitter seconds drawn in `handleCursorCollision`:
`MIN + Math.floor(Math.random() * (MAX - MIN + 1))` for the random sample
`r`. -/
def jitterSecondsFromRandom (r : ℚ) : ℤ :=
  MIN_JITTER_SECONDS + ⌊r * ((MAX_JITTER_SECONDS - MIN_JITTER_SECONDS + 1 : ℤ) : ℚ)⌋

/-- Models `handleCursorCollision(currentCursor, previousCursor, options)`
with the `Math.random()` sample `r` explicit.  A `previousCursor` of
`none` models `undefined`; the empty string is falsy in the collision
test, exactly as in `!previousCursor`.  The `none` branch of the inner
parse models `parseInt` returning `NaN`, which `String(NaN + j)` renders
as `"NaN"`. -/
def handleCursorCollision (currentCursor : String) (previousCursor : Option String)
    (r : ℚ) (options : CursorOptions) : String :=
  match previousCursor with
  | none => currentCursor
  | some prev =>
    if prev = "" ∨ currentCursor ≠ prev then currentCursor
    else
      let intervalSeconds := options.intervalSeconds.getD DEFAULT_CURSOR_INTERVAL_SECONDS
      let jitterSeconds := jitterSecondsFromRandom r
      let jitterIntervals := ⌈((jitterSeconds : ℤ) : ℚ) / ((intervalSeconds : ℤ) : ℚ)⌉
      match parseIntJS currentCursor with
      | none => "NaN"
      | some currentInterval => intToString (currentInterval + jitterIntervals)

/-- Models `generateResponseCursor(clientCursor, options)` at time `now`
with random sample `r`: cursor calculation combined with collision
handling. -/
def generateResponseCursor (now : ℤ) (clientCursor : Option String)
    (r : ℚ) (options : CursorOptions) : String :=
  handleCursorCollision (calculateCursor now options) clientCursor r options

theorem floor_ratCast_div (a b : ℤ) (hb : 0 < b) :
    ⌊((a : ℚ)) / ((b : ℚ))⌋ = a / b := by
  have hbt : ((b.toNat : ℕ) : ℤ) = b := Int.toNat_of_nonneg hb.le
  have hcast : ((b : ℚ)) = ((b.toNat : ℕ) : ℚ) := by exact_mod_cast hbt.symm
  rw [hcast, Rat.floor_intCast_div_natCast a b.toNat, hbt]

/-- C1: for every time `now` at or after the epoch and every positive
interval length, `calculateCursor` returns the decimal string rendering of
`floor((now − epochMs) / (intervalSeconds × 1000))` — the interval number
since the epoch (for a positive divisor and a nonnegative numerator the
integer division below is exactly that floor). -/
theorem calculateCursor_eq_interval_number (now epochMs intervalSeconds : ℤ)
    (h1 : epochMs ≤ now) (h2 : 0 < intervalSeconds) :
    calculateCursor now ⟨some intervalSeconds, some epochMs⟩
      = intToString ((now - epochMs) / (intervalSeconds * 1000)) := by
  unfold calculateCursor
  simp only [Option.getD_some]
  rw [floor_ratCast_div _ _ (by positivity)]

theorem calculateCursor_eq_interval_number_witness :
    (0 : ℤ) ≤ 100000 ∧ (0 : ℤ) < 20 ∧
      calculateCursor 100000 ⟨some 20, some 0⟩ = intToString 5 := by
  refine ⟨by norm_num, by norm_num, ?_⟩
  have h := calculateCursor_eq_interval_number 100000 0 20 (by norm_num) (by norm_num)
  rw [h]
  norm_num

/-- C6: with empty cursor options the computation uses the default 20 s
interval and the default epoch 2025-12-19T00:00:00Z (epoch milliseconds
1766102400000); for every `now`, the result with empty options equals the
result with both defaults passed explicitly. -/
theorem calculateCursor_default_options (now : ℤ) :
    calculateCursor now {} = calculateCursor now ⟨some 20, some 1766102400000⟩
      ∧ DEFAULT_CURSOR_INTERVAL_SECONDS = 20
      ∧ DEFAULT_CURSOR_EPOCH = 1766102400000 := by
  have he : DEFAULT_CURSOR_EPOCH = 1766102400000 := by decide
  refine ⟨?_, rfl, he⟩
  simp only [calculateCursor, Option.getD_some, Option.getD_none, he]
  rfl

theorem handleCursorCollision_no_collision (cur : String) (prev : Option String)
    (r : ℚ) (options : CursorOptions) (h : prev = none ∨ prev ≠ some cur) :
    handleCursorCollision cur prev r options = cur := by
  cases prev with
  | none => rfl
  | some p =>
    have hp : p ≠ cur := by
      rcases h with h | h
      · exact absurd h (by simp)
      · intro hc; exact h (by rw [hc])
    simp only [handleCursorCollision]
    rw [if_pos (Or.inr (Ne.symm hp))]

theorem handleCursorCollision_collision (n : ℤ) (r : ℚ) (options : CursorOptions) :
    handleCursorCollision (intToString n) (some (intToString n)) r options
      = intToString (n + ⌈((jitterSecondsFromRandom r : ℤ) : ℚ)
          / ((options.intervalSeconds.getD DEFAULT_CURSOR_INTERVAL_SECONDS : ℤ) : ℚ)⌉) := by
  simp only [handleCursorCollision]
  rw [if_neg (by
    rintro (h | h)
    · exact intToString_ne_empty n h
    · exact h rfl)]
  rw [parseIntJS_intToString n]

theorem jitterSecondsFromRandom_range (r : ℚ) (h0 : 0 ≤ r) (h1 : r < 1) :
    1 ≤ jitterSecondsFromRandom r ∧ jitterSecondsFromRandom r ≤ 3600 := by
  rw [jitterSecondsFromRandom, MIN_JITTER_SECONDS, MAX_JITTER_SECONDS]
  have hcast : (((3600 - 1 + 1 : ℤ)) : ℚ) = 3600 := by norm_num
  rw [hcast]
  constructor
  · have : (0 : ℤ) ≤ ⌊r * 3600⌋ := Int.floor_nonneg.mpr (by positivity)
    omega
  · have : ⌊r * 3600⌋ < 3600 := by
      rw [Int.floor_lt]
      calc r * 3600 < 1 * 3600 := by
            exact mul_lt_mul_of_pos_right h1 (by norm_num)
        _ = ((3600 : ℤ) : ℚ) := by norm_num
    omega

theorem jitterIntervals_pos (J i : ℤ) (hJ : 1 ≤ J) (hi : 0 < i) :
    1 ≤ ⌈((J : ℤ) : ℚ) / ((i : ℤ) : ℚ)⌉ := by
  have hpos : (0 : ℚ) < ((J : ℤ) : ℚ) / ((i : ℤ) : ℚ) := by
    apply div_pos
    · exact_mod_cast (by omega : (0 : ℤ) < J)
    · exact_mod_cast hi
  exact Int.ceil_pos.mpr hpos

/-- C2: for a computed cursor (the rendering of interval number `n`) and
any client-supplied previous cursor: without a collision
`handleCursorCollision` returns the computed cursor unchanged; on a
collision it returns the computed interval number advanced by
`ceil(J / intervalSeconds)` for the random jitter `J ∈ [1, 3600]`, and the
returned cursor parses to an integer strictly greater than the parse of
the supplied `previousCursor`. -/
theorem handleCursorCollision_jitter (n : ℤ) (prev : Option String) (r : ℚ)
    (options : CursorOptions)
    (hi : 0 < options.intervalSeconds.getD DEFAULT_CURSOR_INTERVAL_SECONDS)
    (hr0 : 0 ≤ r) (hr1 : r < 1) :
    ((prev = none ∨ prev ≠ some (intToString n)) →
      handleCursorCollision (intToString n) prev r options = intToString n)
    ∧ (prev = some (intToString n) →
        1 ≤ jitterSecondsFromRandom r ∧ jitterSecondsFromRandom r ≤ 3600
        ∧ handleCursorCollision (intToString n) prev r options
            = intToString (n + ⌈((jitterSecondsFromRandom r : ℤ) : ℚ)
                / ((options.intervalSeconds.getD DEFAULT_CURSOR_INTERVAL_SECONDS : ℤ) : ℚ)⌉)
        ∧ ∃ m : ℤ,
            parseIntJS (handleCursorCollision (intToString n) prev r options) = some m
            ∧ parseIntJS (intToString n) = some n ∧ n < m) := by
  constructor
  · exact handleCursorCollision_no_collision _ prev r options
  · intro hprev
    subst hprev
    obtain ⟨hJ1, hJ2⟩ := jitterSecondsFromRandom_range r hr0 hr1
    have heq := handleCursorCollision_collision n r options
    refine ⟨hJ1, hJ2, heq, n + ⌈((jitterSecondsFromRandom r : ℤ) : ℚ)
      / ((options.intervalSeconds.getD DEFAULT_CURSOR_INTERVAL_SECONDS : ℤ) : ℚ)⌉, ?_, ?_, ?_⟩
    · rw [heq, parseIntJS_intToString]
    · exact parseIntJS_intToString n
    · have := jitterIntervals_pos (jitterSecondsFromRandom r)
        (options.intervalSeconds.getD DEFAULT_CURSOR_INTERVAL_SECONDS) hJ1 hi
      omega

theorem handleCursorCollision_jitter_witness :
    (0 : ℤ) < (CursorOptions.mk (some 20) none).intervalSeconds.getD
        DEFAULT_CURSOR_INTERVAL_SECONDS
    ∧ (0 : ℚ) ≤ 0 ∧ (0 : ℚ) < 1
    ∧ handleCursorCollision (intToString 0) (some (intToString 0)) 0 ⟨some 20, none⟩
        = intToString 1 := by
  have hi : (0 : ℤ) < (CursorOptions.mk (some 20) none).intervalSeconds.getD
      DEFAULT_CURSOR_INTERVAL_SECONDS := by norm_num
  refine ⟨hi, le_refl 0, by norm_num, ?_⟩
  have h := ((handleCursorCollision_jitter 0 (some (intToString 0)) 0
    ⟨some 20, none⟩ hi (le_refl 0) (by norm_num)).2 rfl).2.2.1
  rw [h]
  have hJ : jitterSecondsFromRandom 0 = 1 := by
    rw [jitterSecondsFromRandom, MIN_JITTER_SECONDS, MAX_JITTER_SECONDS]
    norm_num
  rw [hJ]
  have hceil : ⌈(((1 : ℤ)) : ℚ) / (((CursorOptions.mk (some 20) none).intervalSeconds.getD
      DEFAULT_CURSOR_INTERVAL_SECONDS : ℤ) : ℚ)⌉ = 1 := by
    rw [show ((CursorOptions.mk (some 20) none).intervalSeconds.getD
      DEFAULT_CURSOR_INTERVAL_SECONDS) = 20 from rfl]
    rw [Int.ceil_eq_iff]
    constructor <;> norm_num
  rw [hceil]
  norm_num

/-- C3 as stated is false on the code: at one and the same instant
(`t1 = t2 = 0`, epoch 0, interval 20 s) a request supplying the colliding
cursor `"0"` receives cursor `"1"` while a simultaneous request supplying
no cursor receives `"0"`, so the cursor returned at the later (equal) time
is numerically smaller. -/
theorem generateResponseCursor_not_monotone :
    (0 : ℤ) ≤ 0
    ∧ generateResponseCursor 0 (some (intToString 0)) 0 ⟨some 20, some 0⟩ = intToString 1
    ∧ generateResponseCursor 0 none 0 ⟨some 20, some 0⟩ = intToString 0
    ∧ parseIntJS (intToString 1) = some 1
    ∧ parseIntJS (intToString 0) = some 0
    ∧ ¬ ((1 : ℤ) ≤ 0) := by
  have hc : calculateCursor 0 ⟨some 20, some 0⟩ = intToString 0 := by
    unfold calculateCursor
    simp only [Option.getD_some]
    rw [floor_ratCast_div (0 - 0) (20 * 1000) (by norm_num)]
    decide
  refine ⟨le_refl 0, ?_, ?_, parseIntJS_intToString 1, parseIntJS_intToString 0, by norm_num⟩
  · rw [generateResponseCursor, hc, handleCursorCollision_collision 0 0 ⟨some 20, some 0⟩]
    have hJ : jitterSecondsFromRandom 0 = 1 := by
      rw [jitterSecondsFromRandom, MIN_JITTER_SECONDS, MAX_JITTER_SECONDS]
      norm_num
    rw [hJ]
    have hceil : ⌈((1 : ℤ) : ℚ) / (((CursorOptions.mk (some 20) (some 0)).intervalSeconds.getD
        DEFAULT_CURSOR_INTERVAL_SECONDS : ℤ) : ℚ)⌉ = 1 := by
      rw [show ((CursorOptions.mk (some 20) (some 0)).intervalSeconds.getD
        DEFAULT_CURSOR_INTERVAL_SECONDS) = 20 from rfl]
      rw [Int.ceil_eq_iff]
      constructor <;> norm_num
    rw [hceil]
    decide
  · rw [generateResponseCursor, hc,
      handleCursorCollision_no_collision _ _ _ _ (Or.inl rfl)]

/-- C3 amended: the computed cursor `calculateCursor` is monotonically
non-decreasing in time and identical for any two request times inside the
same interval, and `generateResponseCursor` returns it unchanged to every
request whose supplied cursor does not collide with it; a colliding
request instead receives a strictly larger, jittered cursor, so the
original cross-request monotonicity only holds for non-colliding
requests. -/
theorem calculateCursor_monotone_stable (t1 t2 epochMs intervalSeconds : ℤ)
    (hi : 0 < intervalSeconds) (hle : t1 ≤ t2) :
    (∃ n1 n2 : ℤ,
        parseIntJS (calculateCursor t1 ⟨some intervalSeconds, some epochMs⟩) = some n1
      ∧ parseIntJS (calculateCursor t2 ⟨some intervalSeconds, some epochMs⟩) = some n2
      ∧ n1 ≤ n2)
    ∧ (∀ k : ℤ,
        k * (intervalSeconds * 1000) ≤ t1 - epochMs →
        t1 - epochMs < (k + 1) * (intervalSeconds * 1000) →
        k * (intervalSeconds * 1000) ≤ t2 - epochMs →
        t2 - epochMs < (k + 1) * (intervalSeconds * 1000) →
        calculateCursor t1 ⟨some intervalSeconds, some epochMs⟩
          = calculateCursor t2 ⟨some intervalSeconds, some epochMs⟩)
    ∧ (∀ (prev : Option String) (r : ℚ),
        (prev = none ∨ prev ≠ some (calculateCursor t1 ⟨some intervalSeconds, some epochMs⟩)) →
        generateResponseCursor t1 prev r ⟨some intervalSeconds, some epochMs⟩
          = calculateCursor t1 ⟨some intervalSeconds, some epochMs⟩) := by
  have him : (0 : ℚ) < ((intervalSeconds * 1000 : ℤ) : ℚ) := by
    exact_mod_cast (by positivity : (0 : ℤ) < intervalSeconds * 1000)
  have hdef : ∀ t : ℤ, calculateCursor t ⟨some intervalSeconds, some epochMs⟩
      = intToString ⌊((t - epochMs : ℤ) : ℚ) / ((intervalSeconds * 1000 : ℤ) : ℚ)⌋ :=
    fun t => rfl
  refine ⟨?_, ?_, ?_⟩
  · refine ⟨⌊((t1 - epochMs : ℤ) : ℚ) / ((intervalSeconds * 1000 : ℤ) : ℚ)⌋,
      ⌊((t2 - epochMs : ℤ) : ℚ) / ((intervalSeconds * 1000 : ℤ) : ℚ)⌋, ?_, ?_, ?_⟩
    · rw [hdef t1, parseIntJS_intToString]
    · rw [hdef t2, parseIntJS_intToString]
    · apply Int.floor_le_floor
      have hnum : ((t1 - epochMs : ℤ) : ℚ) ≤ ((t2 - epochMs : ℤ) : ℚ) := by
        exact_mod_cast sub_le_sub_right hle epochMs
      gcongr
  · intro k h1 h2 h3 h4
    rw [hdef t1, hdef t2]
    have hf1 : ⌊((t1 - epochMs : ℤ) : ℚ) / ((intervalSeconds * 1000 : ℤ) : ℚ)⌋ = k := by
      rw [Int.floor_eq_iff]
      constructor
      · rw [le_div_iff him]
        exact_mod_cast h1
      · rw [div_lt_iff him]
        exact_mod_cast h2
    have hf2 : ⌊((t2 - epochMs : ℤ) : ℚ) / ((intervalSeconds * 1000 : ℤ) : ℚ)⌋ = k := by
      rw [Int.floor_eq_iff]
      constructor
      · rw [le_div_iff him]
        exact_mod_cast h3
      · rw [div_lt_iff him]
        exact_mod_cast h4
    rw [hf1, hf2]
  · intro prev r hprev
    rw [generateResponseCursor]
    exact handleCursorCollision_no_collision _ prev r _ hprev

theorem calculateCursor_monotone_stable_witness :
    (0 : ℤ) < 20 ∧ (0 : ℤ) ≤ 100
    ∧ calculateCursor 0 ⟨some 20, some 0⟩ = calculateCursor 100 ⟨some 20, some 0⟩ := by
  refine ⟨by norm_num, by norm_num, ?_⟩
  exact (calculateCursor_monotone_stable 0 100 0 20 (by norm_num) (by norm_num)).2.1 0
    (by norm_num) (by norm_num) (by norm_num) (by norm_num)

/-! ## Client response stream (`packages/client/src/response.ts`) -/

/-- Live mode of a client streaming session: TypeScript
`false | "long-poll" | "sse" | "auto"`. -/
inductive LiveMode
  | off
  | longPoll
  | sse
  | auto
deriving DecidableEq

/-- Models `StreamResponseImpl.#shouldContinueLive`: stop when a promise
helper signalled `#stopAfterUpToDate`, or when `live` is `false`. -/
def shouldContinueLive (stopAfterUpToDate : Bool) (live : LiveMode) : Bool :=
  if stopAfterUpToDate then false
  else if live = LiveMode.off then false
  else true

/-- Action one `pull` of the core response stream takes. -/
inductive PullAction
  | yieldFirstAndClose
  | yieldFirst
  | throwSseNotSupported
  | closeOnAbort
  | longPollFetch
  | closeStream
deriving DecidableEq

/-- Models the control flow of the `pull` callback in
`StreamResponseImpl.#createResponseStream`, as a function of the state the
code reads: the session's `live` mode, whether a `startSSE` function was
configured, the `#stopAfterUpToDate` flag, the abort signal, whether the
first response was already yielded, and the current `upToDate`. -/
def pullStep (live : LiveMode)
    (hasStartSSE stopAfterUpToDate aborted firstYielded upToDate : Bool) : PullAction :=
  if ¬ firstYielded then
    if upToDate ∧ ¬ shouldContinueLive stopAfterUpToDate live then
      PullAction.yieldFirstAndClose
    else PullAction.yieldFirst
  else if shouldContinueLive stopAfterUpToDate live then
    if live = LiveMode.sse ∧ hasStartSSE then PullAction.throwSseNotSupported
    else if aborted then PullAction.closeOnAbort
    else PullAction.longPollFetch
  else PullAction.closeStream

/-- C4 as stated is false on the client code: with `live = "sse"` but no
`startSSE` function configured (SSE not implemented), a continuation pull
falls through to the long-poll fetch instead of failing with the
not-supported error. -/
theorem pullStep_sse_falls_back_to_long_poll :
    pullStep LiveMode.sse false false false true false = PullAction.longPollFetch := by
  decide

/-- C4 amended: when `live = "sse"` and an SSE starter is configured, the
continuation pull throws the explicit `SSE_NOT_SUPPORTED` error, and a
session in that configuration never issues a long-poll fetch; only when no
SSE starter is configured does the session silently fall back to
long-poll. -/
theorem pullStep_sse_not_supported (stopAfterUpToDate aborted firstYielded upToDate : Bool)
    (hfy : firstYielded = true)
    (hcont : shouldContinueLive stopAfterUpToDate LiveMode.sse = true) :
    pullStep LiveMode.sse true stopAfterUpToDate aborted firstYielded upToDate
      = PullAction.throwSseNotSupported
    ∧ ∀ st ab fy utd : Bool,
        pullStep LiveMode.sse true st ab fy utd ≠ PullAction.longPollFetch := by
  constructor
  · subst hfy
    simp [pullStep, hcont]
  · decide

theorem pullStep_sse_not_supported_witness :
    (true : Bool) = true ∧ shouldContinueLive false LiveMode.sse = true
    ∧ pullStep LiveMode.sse true false false true false
        = PullAction.throwSseNotSupported := by
  refine ⟨rfl, by decide, ?_⟩
  exact (pullStep_sse_not_supported false false true false rfl (by decide)).1

/-! ## Client error mapping (`packages/client/src/utils.ts`) -/

/-- Error codes carried by `DurableStreamError`. -/
inductive ErrCode
  | NOT_FOUND
  | CONFLICT_EXISTS
  | CONFLICT_SEQ
  | BAD_REQUEST
  | SSE_NOT_SUPPORTED
  | UNKNOWN
deriving DecidableEq

/-- The client's error value: message, machine-readable code, HTTP
status. -/
structure DurableStreamError where
  message : String
  code : ErrCode
  status : Option ℕ
deriving DecidableEq

/-- Modelled from the spec: `DurableStreamError.fromResponse` lives in
`error.ts`, which is not under `src/`; per the spec's error table (§7) it
builds an error carrying the response's own status, `NotFound` being the
404 kind. -/
def DurableStreamError.fromResponse (status : ℕ) (url : String) : DurableStreamError :=
  { message := "HTTP error: " ++ url
    code := if status = 404 then ErrCode.NOT_FOUND else ErrCode.UNKNOWN
    status := some status }

/-- Models `handleErrorResponse(response, url, context)`: the
`DurableStreamError` thrown for an error response with the given status,
where `operation` is `context?.operation`. -/
def handleErrorResponse (status : ℕ) (url : String)
    (operation : Option String) : DurableStreamError :=
  if status = 404 then
    { message := "Stream not found: " ++ url
      code := ErrCode.NOT_FOUND
      status := some 404 }
  else if status = 409 then
    if operation = some "create" then
      { message := "Stream already exists: " ++ url
        code := ErrCode.CONFLICT_EXISTS
        status := some 409 }
    else
      { message := "Sequence conflict: seq is lower than last appended"
        code := ErrCode.CONFLICT_SEQ
        status := some 409 }
  else if status = 400 then
    { message := "Bad request (possibly content-type mismatch)"
      code := ErrCode.BAD_REQUEST
      status := some 400 }
  else DurableStreamError.fromResponse status url

/-- C7: `handleErrorResponse` raises a `NOT_FOUND` `DurableStreamError`
with status 404 exactly when the response status is 404, so a 404 response
is always surfaced as the NotFound kind and no other status is. -/
theorem handleErrorResponse_not_found_iff (status : ℕ) (url : String)
    (operation : Option String) :
    ((handleErrorResponse status url operation).code = ErrCode.NOT_FOUND
      ∧ (handleErrorResponse status url operation).status = some 404)
    ↔ status = 404 := by
  unfold handleErrorResponse DurableStreamError.fromResponse
  by_cases h4 : status = 404
  · simp [h4]
  · rw [if_neg h4]
    by_cases h9 : status = 409
    · rw [if_pos h9]
      by_cases hop : operation = some "create"
      · rw [if_pos hop]; simp [h4]
      · rw [if_neg hop]; simp [h4]
    · rw [if_neg h9]
      by_cases h0 : status = 400
      · rw [if_pos h0]; simp [h4]
      · rw [if_neg h0]; simp [h4]

/-! ## Server append validation (spec-modelled) -/

/-- Outcome of the server store's append validation. -/
inductive AppendOutcome
  | notFound
  | configMismatch
  | invalidArgument
  | seqConflict
  | accepted
deriving DecidableEq

/-- Modelled from the spec: the validation order of the server store's
`Append` (§4.E) — the server implementation itself is not under `src/`.
`NotFound` if the stream is absent or expired; `ConfigMismatch` if the
POST content-type differs from the stream's; `InvalidArgument` if the body
is empty; `SeqConflict` if the supplied sequence is not strictly greater
than the last accepted one. -/
def appendValidate (streamExists : Bool) (streamContentType postContentType : String)
    (bodyEmpty : Bool) (seq : Option String) (lastSeq : String) : AppendOutcome :=
  if ¬ streamExists then AppendOutcome.notFound
  else if postContentType ≠ streamContentType then AppendOutcome.configMismatch
  else if bodyEmpty then AppendOutcome.invalidArgument
  else
    match seq with
    | some s => if s ≤ lastSeq then AppendOutcome.seqConflict else AppendOutcome.accepted
    | none => AppendOutcome.accepted

/-- Modelled from the spec: the HTTP status mapped to each append outcome
(§7). -/
def AppendOutcome.status : AppendOutcome → ℕ
  | AppendOutcome.notFound => 404
  | AppendOutcome.configMismatch => 409
  | AppendOutcome.invalidArgument => 400
  | AppendOutcome.seqConflict => 409
  | AppendOutcome.accepted => 200

/-- C5 as stated is false at the client: a content-type-mismatch append is
rejected `ConfigMismatch`/409 by the server model, but
`handleErrorResponse` reports this 409 — an append, not a create — as the
sequence-conflict error `CONFLICT_SEQ`, so the caller sees a sequence
conflict. -/
theorem contentTypeMismatch_reported_as_seq_conflict :
    appendValidate true "application/json" "text/plain" true none ""
      = AppendOutcome.configMismatch
    ∧ (appendValidate true "application/json" "text/plain" true none "").status = 409
    ∧ (handleErrorResponse 409 "u" (some "append")).code = ErrCode.CONFLICT_SEQ
    ∧ (handleErrorResponse 409 "u" (some "append")).message
        = "Sequence conflict: seq is lower than last appended" := by
  refine ⟨by decide, by decide, by decide, by decide⟩

/-- C5 amended: every POST append whose content-type differs from the
stream's fails `ConfigMismatch`, mapped to HTTP 409, regardless of body
and of any supplied sequence (spec-modelled server side); the client's
`handleErrorResponse`, however, reports every non-create 409 as the
`CONFLICT_SEQ` sequence-conflict error, so the mismatch is surfaced to the
caller as a sequence conflict rather than a config mismatch. -/
theorem appendValidate_content_type_mismatch (streamCT postCT : String)
    (bodyEmpty : Bool) (seq : Option String) (lastSeq : String) (url : String)
    (operation : Option String)
    (hct : postCT ≠ streamCT) (hop : operation ≠ some "create") :
    appendValidate true streamCT postCT bodyEmpty seq lastSeq
      = AppendOutcome.configMismatch
    ∧ (appendValidate true streamCT postCT bodyEmpty seq lastSeq).status = 409
    ∧ (handleErrorResponse 409 url operation).code = ErrCode.CONFLICT_SEQ := by
  have h1 : appendValidate true streamCT postCT bodyEmpty seq lastSeq
      = AppendOutcome.configMismatch := by
    unfold appendValidate
    rw [if_neg (by simp), if_pos hct]
  refine ⟨h1, by rw [h1]; rfl, ?_⟩
  unfold handleErrorResponse
  rw [if_neg (by norm_num), if_pos rfl, if_neg hop]

theorem appendValidate_content_type_mismatch_witness :
    ("text/plain" : String) ≠ "application/json"
    ∧ (some "append" : Option String) ≠ some "create"
    ∧ appendValidate true "application/json" "text/plain" false none ""
        = AppendOutcome.configMismatch := by
  refine ⟨by decide, by decide, ?_⟩
  exact (appendValidate_content_type_mismatch "application/json" "text/plain" false
    none "" "u" (some "append") (by decide) (by decide)).1

/-! ## Go chunk iterator (`durablestreams` package)

Go's `LiveMode` is a string type; `LiveModeNone` is the empty string.
`Header.Get` returns `""` for a missing header, so headers are plain
strings with `""` meaning absent.  `Next()` is modelled as a function of
the iterator state, the context-cancelled flag, and the HTTP response the
request would produce; the returned `Bool` records whether the call
reached the point of issuing an HTTP request.
-/

/-- Go `LiveModeNone`: catch-up only, no live tailing. -/
def LiveModeNone : String := ""

/-- One HTTP response as the Go iterator consumes it. -/
structure HttpResp where
  status : ℕ
  nextOffset : String
  cursor : String
  upToDate : String
  etag : String
  data : List UInt8
deriving DecidableEq

/-- Go `Chunk`: one HTTP response body from the stream. -/
structure Chunk where
  NextOffset : String
  Data : List UInt8
  UpToDate : Bool
  Cursor : String
  ETag : String
deriving DecidableEq

/-- State of a Go `ChunkIterator`: the private `offset` / `cursor`
propagated into requests, their public mirrors `Offset` / `UpToDate` /
`Cursor`, the live mode, and the `closed` / `doneOnce` flags. -/
structure ChunkIterator where
  offset : String
  cursor : String
  live : String
  Offset : String
  UpToDate : Bool
  Cursor : String
  closed : Bool
  doneOnce : Bool
deriving DecidableEq

/-- Result of one `Next()` call: a chunk, the `Done` sentinel, the
`ErrAlreadyClosed` error, a context error, or a stream error carrying the
response status (404, 410 and the default branch). -/
inductive NextResult
  | chunk (c : Chunk)
  | done
  | errAlreadyClosed
  | errCtx
  | errStream (status : ℕ)
deriving DecidableEq

/-- Models `ChunkIterator.Next()`: new state, result, and whether an HTTP
request was issued. -/
def ChunkIterator.next (it : ChunkIterator) (ctxDone : Bool) (resp : HttpResp) :
    ChunkIterator × NextResult × Bool :=
  if it.closed then (it, NextResult.errAlreadyClosed, false)
  else if it.doneOnce then (it, NextResult.done, false)
  else if ctxDone then (it, NextResult.errCtx, false)
  else if resp.status = 200 then
    let nextOffset := resp.nextOffset
    let cursor := resp.cursor
    let upToDate := resp.upToDate == "true"
    let it1 := { it with
      offset := nextOffset
      cursor := cursor
      Offset := nextOffset
      Cursor := cursor
      UpToDate := upToDate
      doneOnce := if upToDate ∧ it.live = LiveModeNone then true else it.doneOnce }
    (it1, NextResult.chunk ⟨nextOffset, resp.data, upToDate, cursor, resp.etag⟩, true)
  else if resp.status = 204 then
    let nextOffset := resp.nextOffset
    let cursor := resp.cursor
    let upToDate := resp.upToDate == "true"
    let it1 := { it with
      offset := if nextOffset ≠ "" then nextOffset else it.offset
      Offset := if nextOffset ≠ "" then nextOffset else it.Offset
      cursor := if cursor ≠ "" then cursor else it.cursor
      Cursor := if cursor ≠ "" then cursor else it.Cursor
      UpToDate := upToDate }
    if it.live = LiveModeNone then
      ({ it1 with doneOnce := true }, NextResult.done, true)
    else
      (it1, NextResult.chunk ⟨nextOffset, [], upToDate, cursor, ""⟩, true)
  else if resp.status = 304 then
    let it1 := { it with
      cursor := if resp.cursor ≠ "" then resp.cursor else it.cursor
      Cursor := if resp.cursor ≠ "" then resp.cursor else it.Cursor }
    (it1, NextResult.chunk ⟨it.offset, [], it.UpToDate, it1.cursor, ""⟩, true)
  else (it, NextResult.errStream resp.status, true)

/-- Models `ChunkIterator.Close()`: cancel and mark closed on the first
call; every call returns a nil error (`none`). -/
def ChunkIterator.close (it : ChunkIterator) : ChunkIterator × Option String :=
  if it.closed then (it, none)
  else ({ it with closed := true }, none)

/-- C8: for a catch-up-only iterator (`live = LiveModeNone`), processing a
200 response whose `Stream-Up-To-Date` header is `"true"`, or any 204
response, sets `doneOnce`; and on any not-yet-closed iterator with
`doneOnce` set, `Next()` returns the `Done` sentinel with the state
untouched and without issuing an HTTP request. -/
theorem chunkIterator_done_after_catchup (it it2 : ChunkIterator)
    (ctxDone ctxDone2 : Bool) (resp resp2 : HttpResp)
    (hlive : it.live = LiveModeNone) (hclosed : it.closed = false)
    (hdone : it.doneOnce = false) (hctx : ctxDone = false)
    (hresp : (resp.status = 200 ∧ resp.upToDate = "true") ∨ resp.status = 204)
    (h2closed : it2.closed = false) (h2done : it2.doneOnce = true) :
    (ChunkIterator.next it ctxDone resp).1.doneOnce = true
    ∧ ChunkIterator.next it2 ctxDone2 resp2 = (it2, NextResult.done, false) := by
  constructor
  · rcases hresp with ⟨h200, hutd⟩ | h204
    · simp [ChunkIterator.next, hclosed, hdone, hctx, h200, hutd, hlive]
    · by_cases h200 : resp.status = 200
      · simp [ChunkIterator.next, hclosed, hdone, hctx, h200, hlive]
        omega
      · simp [ChunkIterator.next, hclosed, hdone, hctx, h200, h204, hlive]
  · simp [ChunkIterator.next, h2closed, h2done]

theorem chunkIterator_done_after_catchup_witness :
    (ChunkIterator.mk "-1" "" "" "-1" false "" false false).live = LiveModeNone
    ∧ (ChunkIterator.next (ChunkIterator.mk "-1" "" "" "-1" false "" false false)
        false (HttpResp.mk 204 "" "" "" "" [])).1.doneOnce = true := by
  refine ⟨rfl, ?_⟩
  exact (chunkIterator_done_after_catchup
    (ChunkIterator.mk "-1" "" "" "-1" false "" false false)
    (ChunkIterator.mk "-1" "" "" "-1" false "" false true)
    false false (HttpResp.mk 204 "" "" "" "" []) (HttpResp.mk 204 "" "" "" "" [])
    rfl rfl rfl rfl (Or.inr rfl) rfl rfl).1

/-- C9: when `Next()` processes a 204 No Content response, the `Offset`
field (and the internal `offset`) is updated only if the response carries
a non-empty `Stream-Next-Offset` header, and the `Cursor` field (and the
internal `cursor`) only if it carries a non-empty `Stream-Cursor` header;
absent either header, the previous values are unchanged. -/
theorem chunkIterator_204_frame (it : ChunkIterator) (ctxDone : Bool) (resp : HttpResp)
    (hclosed : it.closed = false) (hdone : it.doneOnce = false) (hctx : ctxDone = false)
    (hst : resp.status = 204) :
    ((resp.nextOffset = "" →
        (ChunkIterator.next it ctxDone resp).1.Offset = it.Offset
        ∧ (ChunkIterator.next it ctxDone resp).1.offset = it.offset)
    ∧ (resp.nextOffset ≠ "" →
        (ChunkIterator.next it ctxDone resp).1.Offset = resp.nextOffset
        ∧ (ChunkIterator.next it ctxDone resp).1.offset = resp.nextOffset)
    ∧ (resp.cursor = "" →
        (ChunkIterator.next it ctxDone resp).1.Cursor = it.Cursor
        ∧ (ChunkIterator.next it ctxDone resp).1.cursor = it.cursor)
    ∧ (resp.cursor ≠ "" →
        (ChunkIterator.next it ctxDone resp).1.Cursor = resp.cursor
        ∧ (ChunkIterator.next it ctxDone resp).1.cursor = resp.cursor)) := by
  have h200 : ¬ resp.status = 200 := by omega
  refine ⟨?_, ?_, ?_, ?_⟩ <;> intro h <;>
    by_cases hl : it.live = LiveModeNone <;>
    simp [ChunkIterator.next, hclosed, hdone, hctx, h200, hst, hl, h]

theorem chunkIterator_204_frame_witness :
    (HttpResp.mk 204 "" "X" "" "" []).status = 204
    ∧ (ChunkIterator.next (ChunkIterator.mk "o" "c" "" "O" false "C" false false)
        false (HttpResp.mk 204 "" "X" "" "" [])).1.Offset = "O"
    ∧ (ChunkIterator.next (ChunkIterator.mk "o" "c" "" "O" false "C" false false)
        false (HttpResp.mk 204 "" "X" "" "" [])).1.Cursor = "X" := by
  have h := chunkIterator_204_frame
    (ChunkIterator.mk "o" "c" "" "O" false "C" false false)
    false (HttpResp.mk 204 "" "X" "" "" []) rfl rfl rfl rfl
  exact ⟨rfl, (h.1 rfl).1, (h.2.2.2 (by decide)).1⟩

theorem chunkIterator_close_of_closed (s : ChunkIterator) (h : s.closed = true) :
    ChunkIterator.close s = (s, none) := by
  unfold ChunkIterator.close
  simp [h]

/-- C10: after `Close()` has returned, every subsequent `Next()` returns
no chunk but the `ErrAlreadyClosed` error, without issuing an HTTP
request; and a second `Close()` returns a nil error with the state
unchanged — `Close` is idempotent. -/
theorem chunkIterator_close_idempotent (it : ChunkIterator) (ctxDone : Bool)
    (resp : HttpResp) :
    (ChunkIterator.close it).2 = none
    ∧ ChunkIterator.next (ChunkIterator.close it).1 ctxDone resp
        = ((ChunkIterator.close it).1, NextResult.errAlreadyClosed, false)
    ∧ ChunkIterator.close (ChunkIterator.close it).1
        = ((ChunkIterator.close it).1, none) := by
  have hclosed : (ChunkIterator.close it).1.closed = true := by
    unfold ChunkIterator.close
    by_cases h : it.closed <;> simp [h]
  refine ⟨?_, ?_, ?_⟩
  · unfold ChunkIterator.close
    by_cases h : it.closed <;> simp [h]
  · simp [ChunkIterator.next, hclosed]
  · exact chunkIterator_close_of_closed _ hclosed
